import Mathlib

/-!
Verification of `errors.go` (package `jwt`).

A shallow embedding of the error model of the package: the eight package-level
error values, the ten `ValidationError...` bit constants, the `ValidationError`
struct, its constructor `NewValidationError` and its methods `Error`, `valid`
and `Is`.

Modelling conventions.

* A Go `error` interface value is a term of the inductive type `error`; the
  constructor `error.nil` is the nil interface. Go compares interface values by
  dynamic type and value, and pointers by identity. Every constructor stands
  for one dynamic type, and pointer-typed values carry what identifies the
  allocation, so that equality with one of the package-level values is exactly
  Go's `==` against that variable.
* `uint32` values are natural numbers. The only operations the code performs
  on them are `&` and a comparison with zero, neither of which can overflow;
  the theorems quantify over all naturals and therefore over every `uint32`.
* A method result is an `Option` where the Go call can panic (`none`).
  Cyclic `Inner` chains cannot be written in an inductive type and are not
  covered.
-/

namespace jwt

/-- Names of the eight package-level error variables of `errors.go` (lines 8-21),
each initialised by its own call of `errors.New`. -/
inductive PkgErr where
  | InvalidKey
  | InvalidKeyType
  | HashUnavailable
  | TokenMalformed
  | TokenUnverifiable
  | TokenSignatureInvalid
  | TokenExpired
  | TokenNotValidYet
  deriving DecidableEq, Repr

/-- Text passed to `errors.New` for each package-level error (lines 9-20). -/
def PkgErr.text : PkgErr → String
  | .InvalidKey => "key is invalid"
  | .InvalidKeyType => "key is of invalid type"
  | .HashUnavailable => "the requested hash function is unavailable"
  | .TokenMalformed => "token is malformed"
  | .TokenUnverifiable => "token could not be verified because of signing problems"
  | .TokenSignatureInvalid => "token signature is invalid"
  | .TokenExpired => "token is expired"
  | .TokenNotValidYet => "token is not valid yet"

/-- Go `error` interface values.

* `nil`: the nil interface.
* `pkg s`: the pointer stored in the package-level variable `s`.
* `errorsNew id text`: the pointer returned by any other call of `errors.New`
  (allocation `id`; never identical to a package-level one).
* `validationErrorPtr addr Inner Errors text`: a non-nil `*ValidationError`
  at address `addr` with the fields of the struct it points to.
* `nilValidationErrorPtr`: a nil `*ValidationError` held in a non-nil interface.
* `validationErrorVal Inner Errors text`: a `ValidationError` held by value.
* `foreign typ result`: a value of any other dynamic type `typ`, with the
  outcome of its `Error()` method (`none` when it panics). -/
inductive error where
  | nil
  | pkg (s : PkgErr)
  | errorsNew (id : Nat) (text : String)
  | validationErrorPtr (addr : Nat) (Inner : error) (Errors : Nat) (text : String)
  | nilValidationErrorPtr
  | validationErrorVal (Inner : error) (Errors : Nat) (text : String)
  | foreign (typ : Nat) (result : Option String)
  deriving DecidableEq, Repr

def ErrInvalidKey : error := error.pkg PkgErr.InvalidKey
def ErrInvalidKeyType : error := error.pkg PkgErr.InvalidKeyType
def ErrHashUnavailable : error := error.pkg PkgErr.HashUnavailable
def ErrTokenMalformed : error := error.pkg PkgErr.TokenMalformed
def ErrTokenUnverifiable : error := error.pkg PkgErr.TokenUnverifiable
def ErrTokenSignatureInvalid : error := error.pkg PkgErr.TokenSignatureInvalid
def ErrTokenExpired : error := error.pkg PkgErr.TokenExpired
def ErrTokenNotValidYet : error := error.pkg PkgErr.TokenNotValidYet

/-- The const block of lines 24-37: `1 << iota`, where `iota` counts the
constant specifications of the block from zero. -/
def ValidationErrorMalformed : Nat := 1 <<< 0
def ValidationErrorUnverifiable : Nat := 1 <<< 1
def ValidationErrorSignatureInvalid : Nat := 1 <<< 2
def ValidationErrorAudience : Nat := 1 <<< 3
def ValidationErrorExpired : Nat := 1 <<< 4
def ValidationErrorIssuedAt : Nat := 1 <<< 5
def ValidationErrorIssuer : Nat := 1 <<< 6
def ValidationErrorNotValidYet : Nat := 1 <<< 7
def ValidationErrorId : Nat := 1 <<< 8
def ValidationErrorClaimsInvalid : Nat := 1 <<< 9

/-- The struct of lines 48-52. -/
structure ValidationError where
  Inner : error
  Errors : Nat
  text : String
  deriving DecidableEq, Repr

/-- A `*ValidationError` as the methods see it: `none` is the nil pointer,
`some e` a pointer to the struct `e`. No method reads the address. -/
abbrev ValidationErrorPtr := Option ValidationError

/-- Lines 40-45: a pointer to a fresh struct; the composite literal leaves
`Inner` at its zero value, the nil interface. -/
def NewValidationError (errorText : String) (errorFlags : Nat) : ValidationErrorPtr :=
  some { Inner := error.nil, Errors := errorFlags, text := errorText }

/-- Dynamic dispatch of the `Error()` method on an interface value; `none` is a
panic (method call on the nil interface, value method through a nil pointer,
or a foreign method that panics). The two `ValidationError` cases are the body
of lines 55-63 with the call on `Inner` dispatched recursively. -/
def error.Error : error → Option String
  | .nil => none
  | .pkg s => some s.text
  | .errorsNew _ text => some text
  | .validationErrorPtr _ Inner _ text =>
      if Inner ≠ error.nil then Inner.Error
      else if text ≠ "" then some text
      else some "token is invalid"
  | .nilValidationErrorPtr => none
  | .validationErrorVal Inner _ text =>
      if Inner ≠ error.nil then Inner.Error
      else if text ≠ "" then some text
      else some "token is invalid"
  | .foreign _ result => result

/-- Lines 55-63, value receiver. -/
def ValidationError.Error (e : ValidationError) : Option String :=
  if e.Inner ≠ error.nil then e.Inner.Error
  else if e.text ≠ "" then some e.text
  else some "token is invalid"

/-- Lines 66-68, pointer receiver: reading `e.Errors` through a nil pointer
panics (`none`). -/
def ValidationError.valid : ValidationErrorPtr → Option Bool
  | none => none
  | some e => some (e.Errors == 0)

/-- Lines 72-91, pointer receiver. The `switch` compares `target` with the
case values from top to bottom and takes the first that is equal. -/
def ValidationError.Is : ValidationErrorPtr → error → Bool
  | none, target => decide (target = error.nil)
  | some e, target =>
      if target = ErrTokenMalformed then
        e.Errors &&& ValidationErrorMalformed != 0
      else if target = ErrTokenUnverifiable then
        e.Errors &&& ValidationErrorUnverifiable != 0
      else if target = ErrTokenSignatureInvalid then
        e.Errors &&& ValidationErrorSignatureInvalid != 0
      else if target = ErrTokenExpired then
        e.Errors &&& ValidationErrorExpired != 0
      else if target = ErrTokenNotValidYet then
        e.Errors &&& ValidationErrorNotValidYet != 0
      else
        false

/-- The five package-level errors that `Is` dispatches on. -/
def maskBacked : List error :=
  [ErrTokenMalformed, ErrTokenUnverifiable, ErrTokenSignatureInvalid,
   ErrTokenExpired, ErrTokenNotValidYet]

/-- All eight package-level errors, in declaration order. -/
def sentinels : List error :=
  [ErrInvalidKey, ErrInvalidKeyType, ErrHashUnavailable, ErrTokenMalformed,
   ErrTokenUnverifiable, ErrTokenSignatureInvalid, ErrTokenExpired, ErrTokenNotValidYet]

/-- The ten constants of the const block, in declaration order. -/
def categories : List Nat :=
  [ValidationErrorMalformed, ValidationErrorUnverifiable, ValidationErrorSignatureInvalid,
   ValidationErrorAudience, ValidationErrorExpired, ValidationErrorIssuedAt,
   ValidationErrorIssuer, ValidationErrorNotValidYet, ValidationErrorId,
   ValidationErrorClaimsInvalid]

/-- The constants tested by the five cases of `Is`, in case order. -/
def backingBits : List Nat :=
  [ValidationErrorMalformed, ValidationErrorUnverifiable, ValidationErrorSignatureInvalid,
   ValidationErrorExpired, ValidationErrorNotValidYet]

/-- The constants of the const block that no case of `Is` tests. -/
def unbackedBits : List Nat :=
  [ValidationErrorAudience, ValidationErrorIssuedAt, ValidationErrorIssuer,
   ValidationErrorId, ValidationErrorClaimsInvalid]

/-- The five cases of the `switch` in `Is` (lines 78-87), in order: the case
value paired with the constant its `return` tests. -/
def sentinelBits : List (error × Nat) :=
  [(ErrTokenMalformed, ValidationErrorMalformed),
   (ErrTokenUnverifiable, ValidationErrorUnverifiable),
   (ErrTokenSignatureInvalid, ValidationErrorSignatureInvalid),
   (ErrTokenExpired, ValidationErrorExpired),
   (ErrTokenNotValidYet, ValidationErrorNotValidYet)]

/-! Auxiliary lemmas -/

theorem and_two_pow_eq (n k : Nat) : n &&& 2 ^ k = if n.testBit k = true then 2 ^ k else 0 := by
  apply Nat.eq_of_testBit_eq
  intro i
  rw [Nat.testBit_and, Nat.testBit_two_pow]
  by_cases h : k = i
  · subst h
    cases hb : n.testBit k <;> simp [Nat.testBit_two_pow_self]
  · cases hb : n.testBit k <;> simp [h, Nat.testBit_two_pow]

theorem and_shift_ne_zero (n k : Nat) : (n &&& 1 <<< k != 0) = n.testBit k := by
  rw [Nat.one_shiftLeft, and_two_pow_eq]
  cases hb : n.testBit k
  · simp
  · have : 2 ^ k ≠ 0 := by positivity
    simp [this]

theorem shift_eq_two_pow_iff (i k : Nat) : 1 <<< i = 2 ^ k ↔ k = i := by
  rw [Nat.one_shiftLeft]
  constructor
  · intro h
    exact (Nat.pow_right_injective (le_refl 2) h).symm
  · intro h
    rw [h]

theorem and_shift_ne_zero_iff (n i : Nat) :
    (n &&& 1 <<< i != 0) = true ↔ ∃ k, 1 <<< i = 2 ^ k ∧ n.testBit k = true := by
  rw [and_shift_ne_zero]
  constructor
  · intro h
    exact ⟨i, Nat.one_shiftLeft i, h⟩
  · rintro ⟨k, hk, hb⟩
    rw [shift_eq_two_pow_iff] at hk
    rw [← hk]
    exact hb

theorem Is_some_eq (e : ValidationError) (target : error) :
    ValidationError.Is (some e) target =
      if target = ErrTokenMalformed then e.Errors.testBit 0
      else if target = ErrTokenUnverifiable then e.Errors.testBit 1
      else if target = ErrTokenSignatureInvalid then e.Errors.testBit 2
      else if target = ErrTokenExpired then e.Errors.testBit 4
      else if target = ErrTokenNotValidYet then e.Errors.testBit 7
      else false := by
  simp only [ValidationError.Is, ValidationErrorMalformed, ValidationErrorUnverifiable,
    ValidationErrorSignatureInvalid, ValidationErrorExpired, ValidationErrorNotValidYet,
    and_shift_ne_zero]

theorem Error_validationErrorVal (Inner : error) (Errors : Nat) (text : String) :
    (error.validationErrorVal Inner Errors text).Error =
      ValidationError.Error ⟨Inner, Errors, text⟩ := by
  simp only [error.Error, ValidationError.Error]

theorem Error_validationErrorPtr (addr : Nat) (Inner : error) (Errors : Nat) (text : String) :
    (error.validationErrorPtr addr Inner Errors text).Error =
      ValidationError.Error ⟨Inner, Errors, text⟩ := by
  simp only [error.Error, ValidationError.Error]

theorem two_pow_mem_backingBits (k : Nat) :
    2 ^ k ∈ backingBits ↔ k = 0 ∨ k = 1 ∨ k = 2 ∨ k = 4 ∨ k = 7 := by
  have inj : ∀ j, 2 ^ k = 2 ^ j ↔ k = j := fun j =>
    (Nat.pow_right_injective (le_refl 2)).eq_iff
  simp only [backingBits, ValidationErrorMalformed, ValidationErrorUnverifiable,
    ValidationErrorSignatureInvalid, ValidationErrorExpired, ValidationErrorNotValidYet,
    Nat.one_shiftLeft, List.mem_cons, List.mem_singleton, inj, List.not_mem_nil, or_false]

theorem single_bit_Is_eq (e : ValidationError) (k : Nat) (h : e.Errors = 2 ^ k)
    (target : error) :
    ValidationError.Is (some e) target =
      if target = ErrTokenMalformed then decide (k = 0)
      else if target = ErrTokenUnverifiable then decide (k = 1)
      else if target = ErrTokenSignatureInvalid then decide (k = 2)
      else if target = ErrTokenExpired then decide (k = 4)
      else if target = ErrTokenNotValidYet then decide (k = 7)
      else false := by
  rw [Is_some_eq, h]
  simp only [Nat.testBit_two_pow]

theorem and_backingBit_eq_zero (n k : Nat) (h : n &&& 1 <<< k = 0) : n.testBit k = false := by
  have hb := and_shift_ne_zero n k
  rw [h] at hb
  rw [← hb]
  rfl

theorem Is_zero_mask (e : ValidationError) (h : e.Errors = 0) (target : error) :
    ValidationError.Is (some e) target = false := by
  rw [Is_some_eq, h]
  simp

theorem and_two_pow_ne_zero_iff (n k : Nat) : n &&& 2 ^ k ≠ 0 ↔ n.testBit k = true := by
  rw [and_two_pow_eq]
  cases hb : n.testBit k
  · simp
  · have : 2 ^ k ≠ 0 := by positivity
    simp [this]

theorem sentinelBits_testBit (p : error × Nat) (hp : p ∈ sentinelBits) :
    ∃ k, p.2 = 2 ^ k ∧ ∀ e : ValidationError,
      ValidationError.Is (some e) p.1 = e.Errors.testBit k := by
  simp only [sentinelBits, List.mem_cons, List.mem_singleton, List.not_mem_nil, or_false] at hp
  rcases hp with rfl | rfl | rfl | rfl | rfl
  · exact ⟨0, rfl, fun e => by rw [Is_some_eq]; rfl⟩
  · exact ⟨1, rfl, fun e => by rw [Is_some_eq]; rfl⟩
  · exact ⟨2, rfl, fun e => by rw [Is_some_eq]; rfl⟩
  · exact ⟨4, rfl, fun e => by rw [Is_some_eq]; rfl⟩
  · exact ⟨7, rfl, fun e => by rw [Is_some_eq]; rfl⟩

theorem single_bit_Is_iff (e : ValidationError) (k i : Nat) (h : e.Errors = 2 ^ k)
    (hc : e.Errors = 1 <<< i) (sentinel : error) (hs : sentinel ∈ maskBacked)
    (hi : ValidationError.Is (some ⟨error.nil, 1 <<< i, ""⟩) sentinel = true)
    (target : error) :
    ValidationError.Is (some e) target = true ↔ target = sentinel := by
  have hk : k = i := (shift_eq_two_pow_iff i k).1 (by rw [← hc, h])
  subst hk
  have key := single_bit_Is_eq e k h
  have key2 := single_bit_Is_eq ⟨error.nil, 1 <<< k, ""⟩ k (Nat.one_shiftLeft k) sentinel
  rw [key2] at hi
  rw [key]
  simp only [maskBacked, List.mem_cons, List.mem_singleton, List.not_mem_nil, or_false] at hs
  have d12 : ErrTokenMalformed ≠ ErrTokenUnverifiable := by decide
  have d13 : ErrTokenMalformed ≠ ErrTokenSignatureInvalid := by decide
  have d14 : ErrTokenMalformed ≠ ErrTokenExpired := by decide
  have d15 : ErrTokenMalformed ≠ ErrTokenNotValidYet := by decide
  have d23 : ErrTokenUnverifiable ≠ ErrTokenSignatureInvalid := by decide
  have d24 : ErrTokenUnverifiable ≠ ErrTokenExpired := by decide
  have d25 : ErrTokenUnverifiable ≠ ErrTokenNotValidYet := by decide
  have d34 : ErrTokenSignatureInvalid ≠ ErrTokenExpired := by decide
  have d35 : ErrTokenSignatureInvalid ≠ ErrTokenNotValidYet := by decide
  have d45 : ErrTokenExpired ≠ ErrTokenNotValidYet := by decide
  rcases hs with rfl | rfl | rfl | rfl | rfl
  · simp only [if_true] at hi
    have hk0 : k = 0 := by simpa using hi
    subst hk0
    constructor
    · intro ho
      by_contra hne
      simp [hne] at ho
    · rintro rfl
      simp
  · simp only [d12.symm, if_false, if_true] at hi
    have hk0 : k = 1 := by simpa using hi
    subst hk0
    constructor
    · intro ho
      by_contra hne
      simp [hne] at ho
    · rintro rfl
      simp [d12.symm]
  · simp only [d13.symm, d23.symm, if_false, if_true] at hi
    have hk0 : k = 2 := by simpa using hi
    subst hk0
    constructor
    · intro ho
      by_contra hne
      simp [hne] at ho
    · rintro rfl
      simp [d13.symm, d23.symm]
  · simp only [d14.symm, d24.symm, d34.symm, if_false, if_true] at hi
    have hk0 : k = 4 := by simpa using hi
    subst hk0
    constructor
    · intro ho
      by_contra hne
      simp [hne] at ho
    · rintro rfl
      simp [d14.symm, d24.symm, d34.symm]
  · simp only [d15.symm, d25.symm, d35.symm, d45.symm, if_false, if_true] at hi
    have hk0 : k = 7 := by simpa using hi
    subst hk0
    constructor
    · intro ho
      by_contra hne
      simp [hne] at ho
    · rintro rfl
      simp [d15.symm, d25.symm, d35.symm, d45.symm]

/-! Claims -/

/-- C1: for every non-nil ValidationError and each of the five mask-backed
sentinels, `Is` returns true exactly when the single bit of the corresponding
category constant is set in `Errors`. -/
theorem Is_sentinel_iff_bit (e : ValidationError) :
    (ValidationError.Is (some e) ErrTokenMalformed = true ↔
      ∃ k, ValidationErrorMalformed = 2 ^ k ∧ e.Errors.testBit k = true) ∧
    (ValidationError.Is (some e) ErrTokenUnverifiable = true ↔
      ∃ k, ValidationErrorUnverifiable = 2 ^ k ∧ e.Errors.testBit k = true) ∧
    (ValidationError.Is (some e) ErrTokenSignatureInvalid = true ↔
      ∃ k, ValidationErrorSignatureInvalid = 2 ^ k ∧ e.Errors.testBit k = true) ∧
    (ValidationError.Is (some e) ErrTokenExpired = true ↔
      ∃ k, ValidationErrorExpired = 2 ^ k ∧ e.Errors.testBit k = true) ∧
    (ValidationError.Is (some e) ErrTokenNotValidYet = true ↔
      ∃ k, ValidationErrorNotValidYet = 2 ^ k ∧ e.Errors.testBit k = true) := by
  refine ⟨?_, ?_, ?_, ?_, ?_⟩
  · exact and_shift_ne_zero_iff e.Errors 0
  · exact and_shift_ne_zero_iff e.Errors 1
  · exact and_shift_ne_zero_iff e.Errors 2
  · exact and_shift_ne_zero_iff e.Errors 4
  · exact and_shift_ne_zero_iff e.Errors 7

/-- C2: `valid` on a non-nil ValidationError returns, and returns true exactly
when `Errors` is zero, whatever `Inner` and `text` are. -/
theorem valid_iff_Errors_zero (Inner : error) (Errors : Nat) (text : String) :
    (∃ b, ValidationError.valid (some ⟨Inner, Errors, text⟩) = some b) ∧
    (ValidationError.valid (some ⟨Inner, Errors, text⟩) = some true ↔ Errors = 0) := by
  constructor
  · exact ⟨_, rfl⟩
  · simp [ValidationError.valid]

/-- C3: when `Inner` is set, `Error` is the outcome of `Inner.Error()`, for
every `Errors` and every `text`. -/
theorem Error_of_Inner (e : ValidationError) (h : e.Inner ≠ error.nil) :
    e.Error = e.Inner.Error := by
  simp [ValidationError.Error, h]

theorem Error_of_Inner_witness :
    (ValidationError.mk ErrInvalidKey 5 "msg").Inner ≠ error.nil ∧
    (ValidationError.mk ErrInvalidKey 5 "msg").Error = some "key is invalid" :=
  ⟨by decide, Error_of_Inner ⟨ErrInvalidKey, 5, "msg"⟩ (by decide)⟩

/-- C4: when `Inner` is nil and `text` is not empty, `Error` returns `text`
verbatim, for every `Errors`. -/
theorem Error_of_text (e : ValidationError) (hInner : e.Inner = error.nil)
    (htext : e.text ≠ "") : e.Error = some e.text := by
  simp [ValidationError.Error, hInner, htext]

theorem Error_of_text_witness :
    (ValidationError.mk error.nil 16 "expired").Inner = error.nil ∧
    (ValidationError.mk error.nil 16 "expired").text ≠ "" ∧
    (ValidationError.mk error.nil 16 "expired").Error = some "expired" :=
  ⟨rfl, by decide, Error_of_text ⟨error.nil, 16, "expired"⟩ rfl (by decide)⟩

/-- C5: when `Inner` is nil and `text` is empty, `Error` returns the fixed
string "token is invalid", for every `Errors`, zero included. -/
theorem Error_fallback (e : ValidationError) (hInner : e.Inner = error.nil)
    (htext : e.text = "") : e.Error = some "token is invalid" := by
  simp [ValidationError.Error, hInner, htext]

theorem Error_fallback_witness :
    (ValidationError.mk error.nil 0 "").Inner = error.nil ∧
    (ValidationError.mk error.nil 0 "").text = "" ∧
    (ValidationError.mk error.nil 0 "").Error = some "token is invalid" :=
  ⟨rfl, rfl, Error_fallback ⟨error.nil, 0, ""⟩ rfl rfl⟩

/-- C6: on a nil receiver `Is` returns true exactly for the nil target; it is
false for each of the eight sentinels, for a ValidationError with a zero mask
held by pointer or by value, and for a nil pointer held in an interface. -/
theorem Is_nil_receiver :
    (∀ target, ValidationError.Is none target = true ↔ target = error.nil) ∧
    (∀ target ∈ sentinels, ValidationError.Is none target = false) ∧
    (∀ addr Inner text,
      ValidationError.Is none (error.validationErrorPtr addr Inner 0 text) = false ∧
      ValidationError.Is none (error.validationErrorVal Inner 0 text) = false) ∧
    ValidationError.Is none error.nilValidationErrorPtr = false := by
  refine ⟨?_, ?_, ?_, ?_⟩
  · intro target
    simp [ValidationError.Is]
  · decide
  · intro addr Inner text
    simp [ValidationError.Is]
  · simp [ValidationError.Is]

/-- C7: on a non-nil receiver `Is` returns false for every target that is not
one of the five mask-backed sentinels; in particular for ErrInvalidKey,
ErrInvalidKeyType and ErrHashUnavailable, for every mask, also when `Inner` is
that very sentinel. -/
theorem Is_other_target_false :
    (∀ (e : ValidationError) (target : error), target ∉ maskBacked →
      ValidationError.Is (some e) target = false) ∧
    (∀ e : ValidationError,
      ValidationError.Is (some e) ErrInvalidKey = false ∧
      ValidationError.Is (some e) ErrInvalidKeyType = false ∧
      ValidationError.Is (some e) ErrHashUnavailable = false) ∧
    (∀ (Errors : Nat) (text : String),
      ValidationError.Is (some ⟨ErrInvalidKey, Errors, text⟩) ErrInvalidKey = false ∧
      ValidationError.Is (some ⟨ErrInvalidKeyType, Errors, text⟩) ErrInvalidKeyType = false ∧
      ValidationError.Is (some ⟨ErrHashUnavailable, Errors, text⟩) ErrHashUnavailable = false) := by
  have general : ∀ (e : ValidationError) (target : error), target ∉ maskBacked →
      ValidationError.Is (some e) target = false := by
    intro e target h
    simp only [maskBacked, List.mem_cons, List.mem_singleton, List.not_mem_nil, or_false,
      not_or] at h
    obtain ⟨h1, h2, h3, h4, h5⟩ := h
    simp [ValidationError.Is, h1, h2, h3, h4, h5]
  refine ⟨general, ?_, ?_⟩
  · intro e
    exact ⟨general e _ (by decide), general e _ (by decide), general e _ (by decide)⟩
  · intro Errors text
    exact ⟨general _ _ (by decide), general _ _ (by decide), general _ _ (by decide)⟩

theorem Is_other_target_false_witness :
    ErrInvalidKey ∉ maskBacked ∧
    ValidationError.Is (some ⟨ErrInvalidKey, 4294967295, "key is invalid"⟩) ErrInvalidKey
      = false :=
  ⟨by decide, Is_other_target_false.1 ⟨ErrInvalidKey, 4294967295, "key is invalid"⟩
    ErrInvalidKey (by decide)⟩

/-- C8: `NewValidationError` returns a non-nil pointer to a struct whose `Inner`
is nil, whose `Errors` is `errorFlags` and whose `text` is `errorText`. -/
theorem NewValidationError_fields (errorText : String) (errorFlags : Nat) :
    ∃ e, NewValidationError errorText errorFlags = some e ∧
      e.Inner = error.nil ∧ e.Errors = errorFlags ∧ e.text = errorText :=
  ⟨_, rfl, rfl, rfl, rfl⟩

/-- C9: the ten category constants are the powers of two 2^0 .. 2^9 in the
published order; they are pairwise distinct, non-zero, and the bitwise AND of
any two different ones is zero. -/
theorem categories_one_bit_each :
    (ValidationErrorMalformed = 2 ^ 0 ∧ ValidationErrorUnverifiable = 2 ^ 1 ∧
      ValidationErrorSignatureInvalid = 2 ^ 2 ∧ ValidationErrorAudience = 2 ^ 3 ∧
      ValidationErrorExpired = 2 ^ 4 ∧ ValidationErrorIssuedAt = 2 ^ 5 ∧
      ValidationErrorIssuer = 2 ^ 6 ∧ ValidationErrorNotValidYet = 2 ^ 7 ∧
      ValidationErrorId = 2 ^ 8 ∧ ValidationErrorClaimsInvalid = 2 ^ 9) ∧
    categories = [1, 2, 4, 8, 16, 32, 64, 128, 256, 512] ∧
    categories.Nodup ∧
    (∀ c ∈ categories, c ≠ 0) ∧
    (∀ a ∈ categories, ∀ b ∈ categories, a ≠ b → a &&& b = 0) := by
  refine ⟨by decide, by decide, by decide, by decide, by decide⟩

/-- C10 as stated fails: the mask ValidationErrorAudience is non-zero and has
exactly one bit set, yet none of the five mask-backed sentinels matches. -/
theorem Is_single_bit_counterexample :
    (ValidationError.mk error.nil ValidationErrorAudience "").Errors ≠ 0 ∧
    (ValidationError.mk error.nil ValidationErrorAudience "").Errors = 2 ^ 3 ∧
    ¬ ∃ target ∈ maskBacked,
      ValidationError.Is (some ⟨error.nil, ValidationErrorAudience, ""⟩) target = true := by
  decide

/-- C10 (amended): for a non-nil ValidationError whose mask is the single bit
2^k: if that bit is one of the five tested by `Is`, then `Is` returns true for
exactly one target, the mask-backed sentinel of that bit (ErrTokenMalformed for
ValidationErrorMalformed, ErrTokenUnverifiable for ValidationErrorUnverifiable,
ErrTokenSignatureInvalid for ValidationErrorSignatureInvalid, ErrTokenExpired
for ValidationErrorExpired, ErrTokenNotValidYet for ValidationErrorNotValidYet),
and false for every other target; if it is any other bit then `Is` returns
false for every target. -/
theorem Is_single_bit (e : ValidationError) (k : Nat) (h : e.Errors = 2 ^ k) :
    (e.Errors = ValidationErrorMalformed →
      ∀ target, ValidationError.Is (some e) target = true ↔ target = ErrTokenMalformed) ∧
    (e.Errors = ValidationErrorUnverifiable →
      ∀ target, ValidationError.Is (some e) target = true ↔ target = ErrTokenUnverifiable) ∧
    (e.Errors = ValidationErrorSignatureInvalid →
      ∀ target, ValidationError.Is (some e) target = true ↔
        target = ErrTokenSignatureInvalid) ∧
    (e.Errors = ValidationErrorExpired →
      ∀ target, ValidationError.Is (some e) target = true ↔ target = ErrTokenExpired) ∧
    (e.Errors = ValidationErrorNotValidYet →
      ∀ target, ValidationError.Is (some e) target = true ↔ target = ErrTokenNotValidYet) ∧
    (e.Errors ∈ backingBits →
      ∃ target ∈ maskBacked, ValidationError.Is (some e) target = true ∧
        ∀ other, ValidationError.Is (some e) other = true → other = target) ∧
    (e.Errors ∉ backingBits → ∀ target, ValidationError.Is (some e) target = false) := by
  have hM := fun hc => single_bit_Is_iff e k 0 h hc ErrTokenMalformed (by decide) (by decide)
  have hU := fun hc => single_bit_Is_iff e k 1 h hc ErrTokenUnverifiable (by decide) (by decide)
  have hS := fun hc =>
    single_bit_Is_iff e k 2 h hc ErrTokenSignatureInvalid (by decide) (by decide)
  have hE := fun hc => single_bit_Is_iff e k 4 h hc ErrTokenExpired (by decide) (by decide)
  have hN := fun hc => single_bit_Is_iff e k 7 h hc ErrTokenNotValidYet (by decide) (by decide)
  refine ⟨hM, hU, hS, hE, hN, ?_, ?_⟩
  · intro hmem
    simp only [backingBits, List.mem_cons, List.mem_singleton, List.not_mem_nil,
      or_false] at hmem
    rcases hmem with hc | hc | hc | hc | hc
    · exact ⟨ErrTokenMalformed, by decide, (hM hc _).2 rfl, fun o ho => (hM hc o).1 ho⟩
    · exact ⟨ErrTokenUnverifiable, by decide, (hU hc _).2 rfl, fun o ho => (hU hc o).1 ho⟩
    · exact ⟨ErrTokenSignatureInvalid, by decide, (hS hc _).2 rfl,
        fun o ho => (hS hc o).1 ho⟩
    · exact ⟨ErrTokenExpired, by decide, (hE hc _).2 rfl, fun o ho => (hE hc o).1 ho⟩
    · exact ⟨ErrTokenNotValidYet, by decide, (hN hc _).2 rfl, fun o ho => (hN hc o).1 ho⟩
  · have key := single_bit_Is_eq e k h
    rw [h, two_pow_mem_backingBits]
    intro hk target
    simp only [not_or] at hk
    obtain ⟨h0, h1, h2, h4, h7⟩ := hk
    rw [key]
    simp [h0, h1, h2, h4, h7]

theorem Is_single_bit_witness :
    (ValidationError.mk error.nil 16 "").Errors = 2 ^ 4 ∧
    (ValidationError.mk error.nil 16 "").Errors = ValidationErrorExpired ∧
    (∀ target, ValidationError.Is (some ⟨error.nil, 16, ""⟩) target = true ↔
      target = ErrTokenExpired) ∧
    (ValidationError.mk error.nil 1 "").Errors = ValidationErrorMalformed ∧
    (∀ target, ValidationError.Is (some ⟨error.nil, 1, ""⟩) target = true ↔
      target = ErrTokenMalformed) :=
  ⟨by decide, by decide,
   (Is_single_bit ⟨error.nil, 16, ""⟩ 4 (by decide)).2.2.2.1 (by decide),
   by decide,
   (Is_single_bit ⟨error.nil, 1, ""⟩ 0 (by decide)).1 (by decide)⟩

/-- C11: `Is` distributes over the union of masks: on the mask `a ||| b` it is
the disjunction of `Is` on `a` and `Is` on `b`, for every target, and OR-ing
further bits into a mask never makes a matching target stop matching. For each
of the five sentinels with its constant: a mask that contains the constant
matches the sentinel whatever other bits are present; a combined mask matches
the sentinel exactly when one of its parts contains the constant; and OR-ing
in bits other than the constant does not change the answer for the sentinel. -/
theorem Is_or_distrib :
    (∀ (Inner : error) (text : String) (a b : Nat) (target : error),
      ValidationError.Is (some ⟨Inner, a ||| b, text⟩) target =
        (ValidationError.Is (some ⟨Inner, a, text⟩) target ||
          ValidationError.Is (some ⟨Inner, b, text⟩) target)) ∧
    (∀ (Inner : error) (text : String) (a b : Nat) (target : error),
      ValidationError.Is (some ⟨Inner, a, text⟩) target = true →
        ValidationError.Is (some ⟨Inner, a ||| b, text⟩) target = true) ∧
    (∀ p ∈ sentinelBits, ∀ (Inner : error) (text : String) (m : Nat),
      ValidationError.Is (some ⟨Inner, m ||| p.2, text⟩) p.1 = true) ∧
    (∀ p ∈ sentinelBits, ∀ (Inner : error) (text : String) (a b : Nat),
      ValidationError.Is (some ⟨Inner, a ||| b, text⟩) p.1 = true ↔
        (a &&& p.2 ≠ 0 ∨ b &&& p.2 ≠ 0)) ∧
    (∀ p ∈ sentinelBits, ∀ (Inner : error) (text : String) (a b : Nat),
      b &&& p.2 = 0 →
        ValidationError.Is (some ⟨Inner, a ||| b, text⟩) p.1 =
          ValidationError.Is (some ⟨Inner, a, text⟩) p.1) := by
  have distrib : ∀ (Inner : error) (text : String) (a b : Nat) (target : error),
      ValidationError.Is (some ⟨Inner, a ||| b, text⟩) target =
        (ValidationError.Is (some ⟨Inner, a, text⟩) target ||
          ValidationError.Is (some ⟨Inner, b, text⟩) target) := by
    intro Inner text a b target
    simp only [Is_some_eq, Nat.testBit_or]
    split_ifs <;> simp
  refine ⟨distrib, ?_, ?_, ?_, ?_⟩
  · intro Inner text a b target h
    rw [distrib, h]
    rfl
  · intro p hp Inner text m
    obtain ⟨k, hk, hIs⟩ := sentinelBits_testBit p hp
    rw [hIs, hk]
    simp only [Nat.testBit_or, Nat.testBit_two_pow_self, Bool.or_true]
  · intro p hp Inner text a b
    obtain ⟨k, hk, hIs⟩ := sentinelBits_testBit p hp
    rw [hIs, hk, and_two_pow_ne_zero_iff, and_two_pow_ne_zero_iff]
    simp only [Nat.testBit_or, Bool.or_eq_true]
  · intro p hp Inner text a b hb
    obtain ⟨k, hk, hIs⟩ := sentinelBits_testBit p hp
    have hbk : b.testBit k = false := by
      cases hbt : b.testBit k
      · rfl
      · rw [hk] at hb
        exact absurd hb ((and_two_pow_ne_zero_iff b k).2 hbt)
    rw [hIs, hIs]
    simp only [Nat.testBit_or, hbk, Bool.or_false]

theorem Is_or_distrib_witness :
    ValidationError.Is (some ⟨error.nil, 16, ""⟩) ErrTokenExpired = true ∧
    ValidationError.Is (some ⟨error.nil, 16 ||| 1, ""⟩) ErrTokenExpired = true ∧
    ValidationError.Is
      (some ⟨error.nil, ValidationErrorExpired ||| ValidationErrorMalformed, ""⟩)
      ErrTokenMalformed = true ∧
    ValidationErrorAudience &&& ValidationErrorUnverifiable = 0 ∧
    ValidationError.Is
      (some ⟨error.nil, ValidationErrorSignatureInvalid ||| ValidationErrorAudience, ""⟩)
      ErrTokenUnverifiable = false :=
  ⟨by decide,
   Is_or_distrib.2.1 error.nil "" 16 1 ErrTokenExpired (by decide),
   Is_or_distrib.2.2.1 (ErrTokenMalformed, ValidationErrorMalformed) (by decide)
     error.nil "" ValidationErrorExpired,
   by decide,
   (Is_or_distrib.2.2.2.2 (ErrTokenUnverifiable, ValidationErrorUnverifiable) (by decide)
     error.nil "" ValidationErrorSignatureInvalid ValidationErrorAudience (by decide)).trans
     (by decide)⟩

/-- C12 as stated fails: with `Inner` set to an error whose text is empty
(`errors.New("")`), `Error` returns the empty string. -/
theorem Error_nonempty_counterexample :
    ValidationError.Error
      ⟨error.errorsNew 0 "", ValidationErrorUnverifiable, "key lookup failed"⟩ = some "" := by
  decide

/-- C12 (amended): when `Inner` is nil, or `Inner.Error()` returns a non-empty
string, `Error` returns a non-empty string, for every `text` and every mask. -/
theorem Error_nonempty (e : ValidationError)
    (h : e.Inner = error.nil ∨ ∃ s, e.Inner.Error = some s ∧ s ≠ "") :
    ∃ s, e.Error = some s ∧ s ≠ "" := by
  rcases h with hnil | ⟨s, hs, hne⟩
  · by_cases ht : e.text = ""
    · exact ⟨"token is invalid", by simp [ValidationError.Error, hnil, ht], by decide⟩
    · exact ⟨e.text, by simp [ValidationError.Error, hnil, ht], ht⟩
  · by_cases hnil : e.Inner = error.nil
    · rw [hnil] at hs
      simp [error.Error] at hs
    · exact ⟨s, by simp [ValidationError.Error, hnil, hs], hne⟩

theorem Error_nonempty_witness :
    ∃ s, (ValidationError.mk ErrHashUnavailable 0 "").Error = some s ∧ s ≠ "" :=
  Error_nonempty ⟨ErrHashUnavailable, 0, ""⟩
    (Or.inr ⟨"the requested hash function is unavailable", by decide, by decide⟩)

/-- C13: for `NewValidationError("", SignatureInvalid | Expired)`: `valid` is
false, `Is` is true for ErrTokenSignatureInvalid and ErrTokenExpired and false
for ErrTokenMalformed, and `Error` returns "token is invalid". -/
theorem scenario_signature_expired :
    ∃ e, NewValidationError "" (ValidationErrorSignatureInvalid ||| ValidationErrorExpired)
        = some e ∧
      ValidationError.valid (some e) = some false ∧
      ValidationError.Is (some e) ErrTokenSignatureInvalid = true ∧
      ValidationError.Is (some e) ErrTokenExpired = true ∧
      ValidationError.Is (some e) ErrTokenMalformed = false ∧
      e.Error = some "token is invalid" :=
  ⟨_, rfl, by decide, by decide, by decide, by decide, by decide⟩

/-- C14: for every ValidationError with a zero mask and `Inner` set, whatever
its `text`, `valid` is true while `Error` returns what `Inner.Error()` returns;
with `Inner` one of the package-level errors that is its text, "key is invalid"
for ErrInvalidKey. -/
theorem scenario_zero_mask_with_cause (e : ValidationError) (hErrors : e.Errors = 0)
    (hInner : e.Inner ≠ error.nil) :
    ValidationError.valid (some e) = some true ∧
    e.Error = e.Inner.Error ∧
    (∀ s : PkgErr, e.Inner = error.pkg s → e.Error = some s.text) ∧
    (e.Inner = ErrInvalidKey → e.Error = some "key is invalid") := by
  have hE : e.Error = e.Inner.Error := by simp [ValidationError.Error, hInner]
  refine ⟨by simp [ValidationError.valid, hErrors], hE, ?_, ?_⟩
  · intro s hs
    rw [hE, hs]
    rfl
  · intro hs
    rw [hE, hs]
    rfl

theorem scenario_zero_mask_with_cause_witness :
    ValidationError.valid (some ⟨ErrInvalidKey, 0, "ignored"⟩) = some true ∧
    (ValidationError.mk ErrInvalidKey 0 "ignored").Error = some "key is invalid" :=
  ⟨(scenario_zero_mask_with_cause ⟨ErrInvalidKey, 0, "ignored"⟩ rfl (by decide)).1,
   (scenario_zero_mask_with_cause ⟨ErrInvalidKey, 0, "ignored"⟩ rfl (by decide)).2.2.2 rfl⟩

/-- C15 as stated fails: `NewValidationError("x", 0)` has a non-empty text and
`valid` returns true on it. -/
theorem NewValidationError_zero_mask_counterexample :
    "x" ≠ "" ∧ ValidationError.valid (NewValidationError "x" 0) = some true := by
  decide

/-- C15 (amended): a zero-mask ValidationError built by `NewValidationError`
tests as valid whatever its message: `valid` returns true for every
`errorText`, empty or not. -/
theorem NewValidationError_zero_mask_valid (errorText : String) :
    ValidationError.valid (NewValidationError errorText 0) = some true := by
  simp [NewValidationError, ValidationError.valid]

/-- C16: on non-nil receivers `Is` depends only on `Errors` and the target: two
ValidationErrors with the same mask give the same result for every target, nil
included, whatever their `Inner` and `text`. -/
theorem Is_depends_on_Errors_only (e1 e2 : ValidationError) (h : e1.Errors = e2.Errors)
    (target : error) :
    ValidationError.Is (some e1) target = ValidationError.Is (some e2) target ∧
    ∀ (Inner : error) (text : String),
      ValidationError.Is (some ⟨Inner, e1.Errors, text⟩) target =
        ValidationError.Is (some e1) target := by
  constructor
  · simp only [Is_some_eq, h]
  · intro Inner text
    simp only [Is_some_eq]

theorem Is_depends_on_Errors_only_witness :
    ValidationError.Is (some ⟨error.nil, 20, ""⟩) ErrTokenExpired =
      ValidationError.Is (some ⟨ErrInvalidKey, 20, "key lookup failed"⟩) ErrTokenExpired :=
  (Is_depends_on_Errors_only ⟨error.nil, 20, ""⟩ ⟨ErrInvalidKey, 20, "key lookup failed"⟩
    rfl ErrTokenExpired).1

/-- C17: on a non-nil receiver, if `Is` returns true for some target (nil
included) then `valid` returns false; equivalently a non-nil ValidationError
with a zero mask matches no target at all, not even the nil target. -/
theorem Is_true_implies_not_valid :
    (∀ (e : ValidationError) (target : error),
      ValidationError.Is (some e) target = true →
        ValidationError.valid (some e) = some false) ∧
    (∀ (e : ValidationError), e.Errors = 0 →
      ∀ target, ValidationError.Is (some e) target = false) ∧
    (∀ (Inner : error) (text : String),
      ValidationError.Is (some ⟨Inner, 0, text⟩) error.nil = false) := by
  refine ⟨?_, ?_, ?_⟩
  · intro e target h
    by_cases h0 : e.Errors = 0
    · rw [Is_zero_mask e h0 target] at h
      exact absurd h (by decide)
    · simp [ValidationError.valid, h0]
  · intro e h0 target
    exact Is_zero_mask e h0 target
  · intro Inner text
    exact Is_zero_mask ⟨Inner, 0, text⟩ rfl error.nil

theorem Is_true_implies_not_valid_witness :
    ValidationError.Is (some ⟨error.nil, 128, ""⟩) ErrTokenNotValidYet = true ∧
    ValidationError.valid (some ⟨error.nil, 128, ""⟩) = some false :=
  ⟨by decide, Is_true_implies_not_valid.1 ⟨error.nil, 128, ""⟩ ErrTokenNotValidYet
    (by decide)⟩

/-- C18: a non-nil ValidationError whose mask has none of the five bits tested
by `Is` matches no target; this includes masks that are non-zero (`valid`
false) because they hold only Audience, IssuedAt, Issuer, Id, ClaimsInvalid
bits or bits at positions 10 and up. -/
theorem Is_false_without_backing_bits :
    (∀ (e : ValidationError), (∀ c ∈ backingBits, e.Errors &&& c = 0) →
      (∀ target, ValidationError.Is (some e) target = false) ∧
      (e.Errors ≠ 0 → ValidationError.valid (some e) = some false)) ∧
    (∀ (e : ValidationError), e.Errors ≠ 0 →
      (∀ k, e.Errors.testBit k = true → 2 ^ k ∈ unbackedBits ∨ 10 ≤ k) →
      ValidationError.valid (some e) = some false ∧
      ∀ target, ValidationError.Is (some e) target = false) := by
  constructor
  · intro e h
    constructor
    · intro target
      have h0 := and_backingBit_eq_zero e.Errors 0 (h _ (by decide))
      have h1 := and_backingBit_eq_zero e.Errors 1 (h _ (by decide))
      have h2 := and_backingBit_eq_zero e.Errors 2 (h _ (by decide))
      have h4 := and_backingBit_eq_zero e.Errors 4 (h _ (by decide))
      have h7 := and_backingBit_eq_zero e.Errors 7 (h _ (by decide))
      rw [Is_some_eq, h0, h1, h2, h4, h7]
      simp
    · intro hne
      simp [ValidationError.valid, hne]
  · intro e hne hbits
    refine ⟨by simp [ValidationError.valid, hne], ?_⟩
    intro target
    have off : ∀ k, 2 ^ k ∉ unbackedBits → ¬ 10 ≤ k → e.Errors.testBit k = false := by
      intro k hk1 hk2
      cases hb : e.Errors.testBit k
      · rfl
      · rcases hbits k hb with hc | hc
        · exact absurd hc hk1
        · exact absurd hc hk2
    have h0 := off 0 (by decide) (by decide)
    have h1 := off 1 (by decide) (by decide)
    have h2 := off 2 (by decide) (by decide)
    have h4 := off 4 (by decide) (by decide)
    have h7 := off 7 (by decide) (by decide)
    rw [Is_some_eq, h0, h1, h2, h4, h7]
    simp

theorem Is_false_without_backing_bits_witness :
    (∀ c ∈ backingBits, (ValidationError.mk error.nil 4294967144 "").Errors &&& c = 0) ∧
    (ValidationError.mk error.nil 4294967144 "").Errors ≠ 0 ∧
    (∀ target, ValidationError.Is (some ⟨error.nil, 4294967144, ""⟩) target = false) ∧
    ValidationError.valid (some ⟨error.nil, 4294967144, ""⟩) = some false :=
  ⟨by decide, by decide,
   (Is_false_without_backing_bits.1 ⟨error.nil, 4294967144, ""⟩ (by decide)).1,
   (Is_false_without_backing_bits.1 ⟨error.nil, 4294967144, ""⟩ (by decide)).2 (by decide)⟩

end jwt
